import Mathlib

/-!
Shallow embedding of the ginslog middlewares (packages `logger` and
`recovery`) and proofs about their configuration and per-request behaviour.

External collaborators are abstracted by their observable behaviour:
* `log/slog`: levels are the slog integer levels, attributes are key/value
  pairs, a `Logger.LogAttrs` call is recorded as a `LogRecord`;
* `regexp`: a compiled regular expression is abstracted by its
  `MatchString` function (`Regexp := String → Bool`); the five anchored
  status-class patterns of the logger package are implemented concretely;
* `gin.Context`: modelled by the per-request data the middlewares read
  (method, URL path, user agent, client IP, the status written by the
  downstream chain, and the measured latency).
-/

namespace Ginslog

/-- slog log levels, as the integers used by `log/slog`. -/
abbrev Level := Int

/-- slog.LevelDebug. -/
def LevelDebug : Level := -4

/-- slog.LevelInfo. -/
def LevelInfo : Level := 0

/-- slog.LevelWarn. -/
def LevelWarn : Level := 4

/-- slog.LevelError. -/
def LevelError : Level := 8

/-- Values carried by the slog attributes these middlewares build. -/
inductive AttrValue where
  | str (s : String)
  | int (i : Int)
  | duration (ns : Int)
  | any (v : String)
deriving DecidableEq

/-- A slog.Attr: a key and a value. -/
structure Attr where
  key : String
  value : AttrValue
deriving DecidableEq

/-- slog.String. -/
def slogString (k v : String) : Attr := ⟨k, AttrValue.str v⟩

/-- slog.Int (the Go int argument, as an integer). -/
def slogInt (k : String) (v : Int) : Attr := ⟨k, AttrValue.int v⟩

/-- slog.Duration, in nanoseconds. -/
def slogDuration (k : String) (ns : Int) : Attr := ⟨k, AttrValue.duration ns⟩

/-- slog.Any (the recovered panic value, rendered opaquely). -/
def slogAny (k : String) (v : String) : Attr := ⟨k, AttrValue.any v⟩

/-- One record emitted through `logger.LogAttrs`: level, message, attributes. -/
structure LogRecord where
  level : Level
  message : String
  attrs : List Attr
deriving DecidableEq

/-- Observable per-request state of a `gin.Context` that the middlewares
read: request method, URL path, user agent, client IP, the HTTP status
left by the downstream chain (`c.Writer.Status()` after `c.Next()`), and
the measured request latency in nanoseconds (`time.Since(start)`). -/
structure GinContext where
  method : String
  path : String
  userAgent : String
  clientIP : String
  status : Int
  latencyNs : Int

/-- A compiled regular expression, abstracted by its `MatchString`
behaviour. -/
def Regexp := String → Bool

/-- The panic value recovered by `recover()` (an `interface` value in Go),
rendered opaquely. -/
def PanicValue := String

end Ginslog

namespace Ginslog.Logger

open Ginslog

/-- The character class of a decimal digit, as in the regex classes of
`logger/config.go`. -/
def isDigitClass (ch : Char) : Bool := ch.isDigit

/-- Compiled form of the anchored pattern matching a leading digit `d`
followed by exactly two decimal digits (the shape of the five status-class
regex constants of `logger/config.go`). -/
def codeClassRegex (d : Char) : Regexp := fun s =>
  match s.toList with
  | [c0, c1, c2] => c0 == d && isDigitClass c1 && isDigitClass c2
  | _ => false

/-- HTTPInformationalRegex: 1XX status codes. -/
def HTTPInformationalRegex : Regexp := codeClassRegex '1'

/-- HTTPSuccessfulRegex: 2XX status codes. -/
def HTTPSuccessfulRegex : Regexp := codeClassRegex '2'

/-- HTTPRedirectionRegex: 3XX status codes. -/
def HTTPRedirectionRegex : Regexp := codeClassRegex '3'

/-- HTTPClientErrorRegex: 4XX status codes. -/
def HTTPClientErrorRegex : Regexp := codeClassRegex '4'

/-- HTTPServerErrorRegex: 5XX status codes. -/
def HTTPServerErrorRegex : Regexp := codeClassRegex '5'

/-- logger.CustomFields: a callback producing extra attributes from the
request context. -/
def CustomFields := GinContext → List Attr

/-- logger.CustomLogger: a callback invoked with the context and the
logger; its effects are external, only its presence matters here. In the
Go struct this field is a nil-able function value, modelled as `Option`. -/
def CustomLogger := GinContext → Unit

/-- logger.httpLevel: a log level together with a compiled status-code
regex. -/
structure HttpLevel where
  level : Level
  regexp : Regexp

/-- logger.newhttpLevel (regexp.MustCompile is abstracted: the argument is
already the compiled matcher). -/
def newhttpLevel (re : Regexp) (level : Level) : HttpLevel :=
  { level := level, regexp := re }

/-- logger.httpLevel.match: the status code, printed in decimal as by
`fmt.Sprintf` with the `d` verb, matches the regex. -/
def HttpLevel.matchCode (h : HttpLevel) (code : Int) : Bool :=
  h.regexp (toString code)

/-- logger.Config. The Go `customLogger` field is left unset by
`newConfig`, so its zero value is the nil function, modelled as `none`. -/
structure Config where
  defaultLevel : Level
  httpLevels : List HttpLevel
  whitelistPaths : List Regexp
  blacklistPaths : List Regexp
  customLogger : Option CustomLogger
  customFields : Option CustomFields
  ipField : Bool
  statusField : Bool
  methodField : Bool
  pathField : Bool
  userAgentField : Bool
  latencyField : Bool
  requestIDField : Bool

/-- logger.newConfig. -/
def newConfig : Config :=
  { defaultLevel := LevelInfo
    httpLevels :=
      [ newhttpLevel HTTPInformationalRegex LevelInfo
      , newhttpLevel HTTPSuccessfulRegex LevelInfo
      , newhttpLevel HTTPRedirectionRegex LevelInfo
      , newhttpLevel HTTPClientErrorRegex LevelWarn
      , newhttpLevel HTTPServerErrorRegex LevelError ]
    whitelistPaths := []
    blacklistPaths := []
    customLogger := none
    customFields := none
    ipField := true
    statusField := true
    methodField := true
    pathField := true
    userAgentField := true
    latencyField := true
    requestIDField := true }

/-- logger.Config.isDefaultFields. -/
def Config.isDefaultFields (c : Config) : Bool :=
  c.ipField ||
    c.statusField ||
    c.methodField ||
    c.pathField ||
    c.userAgentField ||
    c.latencyField ||
    c.requestIDField

/-- logger.Config.validate. A Go `panic` at configuration time is modelled
as `Except.error` carrying the panic message (the first message reads
`whitelist and blacklist can not be used together` in the source, with a
contraction). -/
def Config.validate (c : Config) : Except String Unit :=
  if c.whitelistPaths.length != 0 && c.blacklistPaths.length != 0 then
    Except.error "whitelist and blacklist can not be used together"
  else if !c.isDefaultFields && c.customFields.isNone then
    Except.error "no fields to log"
  else
    Except.ok ()

/-- logger.ConfigOption (Go mutates a `*Config`; modelled functionally). -/
def ConfigOption := Config → Config

/-- logger.WithDefaultLevel. -/
def withDefaultLevel (level : Level) : ConfigOption :=
  fun c => { c with defaultLevel := level }

/-- logger.WithHTTPLevels: resets the list and appends one entry per map
entry (Go map iteration order is unspecified; the resulting list order is
taken as given). -/
def withHTTPLevels (httpLevels : List (Regexp × Level)) : ConfigOption :=
  fun c =>
    { c with httpLevels := httpLevels.map (fun p => newhttpLevel p.1 p.2) }

/-- logger.WithWhitelistPath (regexes arrive compiled). -/
def withWhitelistPath (whitelistPath : List Regexp) : ConfigOption :=
  fun c => { c with whitelistPaths := c.whitelistPaths ++ whitelistPath }

/-- logger.WithBlacklistPath (regexes arrive compiled). -/
def withBlacklistPath (blacklistPath : List Regexp) : ConfigOption :=
  fun c => { c with blacklistPaths := c.blacklistPaths ++ blacklistPath }

/-- logger.WithCustomLogger. -/
def withCustomLogger (customLogger : CustomLogger) : ConfigOption :=
  fun c => { c with customLogger := some customLogger }

/-- logger.WithCustomFields. -/
def withCustomFields (customFields : CustomFields) : ConfigOption :=
  fun c => { c with customFields := some customFields }

/-- logger.WithoutDefaultFields. -/
def withoutDefaultFields : ConfigOption :=
  fun c =>
    { c with
      ipField := false
      statusField := false
      methodField := false
      pathField := false
      userAgentField := false
      latencyField := false
      requestIDField := false }

/-- logger.WithoutIP. -/
def withoutIP : ConfigOption := fun c => { c with ipField := false }

/-- logger.WithoutStatus. -/
def withoutStatus : ConfigOption := fun c => { c with statusField := false }

/-- logger.WithoutMethod. -/
def withoutMethod : ConfigOption := fun c => { c with methodField := false }

/-- logger.WithoutPath. -/
def withoutPath : ConfigOption := fun c => { c with pathField := false }

/-- logger.WithoutUserAgent. -/
def withoutUserAgent : ConfigOption :=
  fun c => { c with userAgentField := false }

/-- logger.WithoutLatency. -/
def withoutLatency : ConfigOption := fun c => { c with latencyField := false }

/-- logger.WithoutRequestID. -/
def withoutRequestID : ConfigOption :=
  fun c => { c with requestIDField := false }

/-- The configuration built by `logger.New` before validation: the
functional options applied, in order, to `newConfig`. -/
def buildConfig (opts : List ConfigOption) : Config :=
  opts.foldl (fun c opt => opt c) newConfig

/-- logger.New, up to and including `config.validate()`: either the panic
message or the validated configuration captured by the returned handler
closure (the closure itself is `loggerHandle` applied to this
configuration). -/
def New (opts : List ConfigOption) : Except String Config :=
  let config := buildConfig opts
  match config.validate with
  | Except.error e => Except.error e
  | Except.ok _ => Except.ok config

/-- The response headers the handler sets before calling `c.Next()`:
`X-Request-ID` when the request-id field is enabled. This depends only on
the configuration and the generated request id, never on anything produced
by the downstream chain. -/
def responseHeaders (config : Config) (requestID : String) :
    List (String × String) :=
  if config.requestIDField then [("X-Request-ID", requestID)] else []

/-- The status-code loop at the end of the handler: walk `httpLevels` in
order, the first rule whose regex matches the status code gives the level;
when the loop falls through, the default level is used. -/
def resolveLevel : List HttpLevel → Level → Int → Level
  | [], defaultLevel, _ => defaultLevel
  | h :: rest, defaultLevel, code =>
    if h.matchCode code then h.level else resolveLevel rest defaultLevel code

/-- Observable outcome of one run of the handler returned by `logger.New`:
the response headers set before `c.Next()`, the records emitted through
`logger.LogAttrs`, and whether the handler invoked a nil function value
(which panics in Go). -/
structure Output where
  headers : List (String × String)
  records : List LogRecord
  nilCustomLoggerCall : Bool
deriving DecidableEq

/-- The per-request handler returned by `logger.New`, run on one request.
Inputs: the captured configuration, the generated request id (`uuid.New`),
and the context state after `c.Next()`. Returns the configuration as the
handler leaves it together with the observable output. After emitting the
record the Go code calls `config.customLogger(c, logger)` without a nil
check, so that call is a nil function call whenever no custom logger was
configured. -/
def loggerHandle (config : Config) (requestID : String) (c : GinContext) :
    Config × Output :=
  if decide (0 < config.whitelistPaths.length) &&
      config.whitelistPaths.any (fun re => !(re c.path)) then
    (config,
      { headers := responseHeaders config requestID, records := [],
        nilCustomLoggerCall := false })
  else if decide (0 < config.blacklistPaths.length) &&
      config.blacklistPaths.any (fun re => re c.path) then
    (config,
      { headers := responseHeaders config requestID, records := [],
        nilCustomLoggerCall := false })
  else
    let attributes : List Attr := []
    let attributes :=
      if config.ipField then attributes ++ [slogString "ip" c.clientIP]
      else attributes
    let attributes :=
      if config.statusField then attributes ++ [slogInt "status" c.status]
      else attributes
    let attributes :=
      if config.methodField then attributes ++ [slogString "method" c.method]
      else attributes
    let attributes :=
      if config.pathField then attributes ++ [slogString "path" c.path]
      else attributes
    let attributes :=
      if config.userAgentField then
        attributes ++ [slogString "user-agent" c.userAgent]
      else attributes
    let attributes :=
      if config.latencyField then
        attributes ++ [slogDuration "latency" c.latencyNs]
      else attributes
    let attributes :=
      if config.requestIDField then
        attributes ++ [slogString "request-id" requestID]
      else attributes
    let attributes :=
      match config.customFields with
      | some f => attributes ++ f c
      | none => attributes
    let level := resolveLevel config.httpLevels config.defaultLevel c.status
    (config,
      { headers := responseHeaders config requestID
        records := [{ level := level, message := "Incoming request", attrs := attributes }]
        nilCustomLoggerCall := config.customLogger.isNone })

/-- Spec-side definition (for the refinement claim about level
resolution): the level of the first rule in the configured `httpLevels`
list whose regex matches the decimal string of the status code, and the
configured default level when no rule matches. -/
def firstMatchLevel (levels : List HttpLevel) (defaultLevel : Level)
    (code : Int) : Level :=
  match levels.find? (fun h => h.regexp (toString code)) with
  | some h => h.level
  | none => defaultLevel

end Ginslog.Logger

namespace Ginslog.Recovery

open Ginslog

/-- recovery.CustomFields: a callback producing extra attributes from the
request context. -/
def CustomFields := GinContext → List Attr

/-- gin.RecoveryFunc: invoked with the context and the recovered panic
value; its observable effect here is the HTTP status it aborts with
(`c.AbortWithStatus`), or `none` when it sets no status. -/
def RecoveryFunc := GinContext → PanicValue → Option Int

/-- recovery.Config. -/
structure Config where
  defaultLevel : Level
  customRecovery : RecoveryFunc
  customFields : Option CustomFields
  errorField : Bool
  requestField : Bool
  stackField : Bool

/-- recovery.newConfig: ERROR level, a recovery function that aborts with
`http.StatusInternalServerError` (500), and all default fields enabled. -/
def newConfig : Config :=
  { defaultLevel := LevelError
    customRecovery := fun _ _ => some 500
    customFields := none
    errorField := true
    requestField := true
    stackField := true }

/-- recovery.Config.isDefaultFields. -/
def Config.isDefaultFields (c : Config) : Bool :=
  c.errorField || c.requestField || c.stackField

/-- recovery.Config.validate; a Go `panic` at configuration time is
modelled as `Except.error` carrying the panic message. -/
def Config.validate (c : Config) : Except String Unit :=
  if !c.isDefaultFields && c.customFields.isNone then
    Except.error "no fields to log"
  else
    Except.ok ()

/-- recovery.ConfigOption (Go mutates a `*Config`; modelled functionally). -/
def ConfigOption := Config → Config

/-- recovery.WithDefaultLevel. -/
def withDefaultLevel (level : Level) : ConfigOption :=
  fun c => { c with defaultLevel := level }

/-- recovery.WithCustomRecovery. -/
def withCustomRecovery (customRecovery : RecoveryFunc) : ConfigOption :=
  fun c => { c with customRecovery := customRecovery }

/-- recovery.WithCustomFields. -/
def withCustomFields (customFields : CustomFields) : ConfigOption :=
  fun c => { c with customFields := some customFields }

/-- recovery.WithoutDefaultFields. -/
def withoutDefaultFields : ConfigOption :=
  fun c =>
    { c with errorField := false, requestField := false, stackField := false }

/-- recovery.WithoutError. -/
def withoutError : ConfigOption := fun c => { c with errorField := false }

/-- recovery.WithoutRequest. -/
def withoutRequest : ConfigOption := fun c => { c with requestField := false }

/-- recovery.WithoutStack. -/
def withoutStack : ConfigOption := fun c => { c with stackField := false }

/-- The configuration built by `recovery.New` before validation. -/
def buildConfig (opts : List ConfigOption) : Config :=
  opts.foldl (fun c opt => opt c) newConfig

/-- recovery.New, up to and including `config.validate()`. -/
def New (opts : List ConfigOption) : Except String Config :=
  let config := buildConfig opts
  match config.validate with
  | Except.error e => Except.error e
  | Except.ok _ => Except.ok config

/-- Outcome of the downstream handler chain run by `c.Next()`: it either
returns normally or panics with a recovered value. -/
inductive Downstream where
  | normal
  | panics (err : PanicValue)

/-- Observable outcome of one run of the handler returned by
`recovery.New`: the records emitted through `logger.LogAttrs`, the status
the recovery action aborted with (if any), and whether a panic escapes the
middleware (the deferred function returns normally after `recover()`, so a
recovered panic is never re-raised). -/
structure Output where
  records : List LogRecord
  abortStatus : Option Int
  repanic : Bool

/-- The per-request handler returned by `recovery.New`, run on one
request. Inputs besides the configuration and context: the bytes of
`httputil.DumpRequest` and of `debug.Stack` (external collaborators), and
the downstream outcome. When the downstream chain panics, the deferred
block recovers, dumps the request only when some default field is enabled,
assembles the enabled fields, emits one record at the configured default
level, and invokes the recovery action. -/
def handle (config : Config) (c : GinContext) (requestDump stackTrace : String)
    (d : Downstream) : Config × Output :=
  match d with
  | Downstream.normal =>
    (config, { records := [], abortStatus := none, repanic := false })
  | Downstream.panics err =>
    let httpRequest := if config.isDefaultFields then requestDump else ""
    let attributes : List Attr := []
    let attributes :=
      if config.errorField then attributes ++ [slogAny "error" err]
      else attributes
    let attributes :=
      if config.requestField then attributes ++ [slogString "request" httpRequest]
      else attributes
    let attributes :=
      if config.stackField then attributes ++ [slogString "stack" stackTrace]
      else attributes
    let attributes :=
      match config.customFields with
      | some f => attributes ++ f c
      | none => attributes
    (config,
      { records :=
          [{ level := config.defaultLevel
             message := "Panic recovered"
             attrs := attributes }]
        abortStatus := config.customRecovery c err
        repanic := false })

end Ginslog.Recovery

namespace Ginslog

open Ginslog

/-- The status-code loop refines the first-match specification. -/
theorem resolveLevel_eq_firstMatchLevel (ls : List Logger.HttpLevel)
    (d : Level) (code : Int) :
    Logger.resolveLevel ls d code = Logger.firstMatchLevel ls d code := by
  induction ls with
  | nil => rfl
  | cons h rest ih =>
    show (if h.matchCode code then h.level else Logger.resolveLevel rest d code)
        = Logger.firstMatchLevel (h :: rest) d code
    unfold Logger.firstMatchLevel
    rw [List.find?_cons]
    cases hm : h.regexp (toString code) with
    | true => simp [Logger.HttpLevel.matchCode, hm]
    | false => simpa [Logger.HttpLevel.matchCode, hm] using ih

/-- The handler either skips logging (filtered path) or emits exactly one
record, at the level of the status-code loop. -/
theorem loggerHandle_records (config : Logger.Config) (requestID : String)
    (c : GinContext) :
    ((Logger.loggerHandle config requestID c).2).records = [] ∨
    ∃ attrs,
      ((Logger.loggerHandle config requestID c).2).records
        = [{ level := Logger.resolveLevel config.httpLevels
                        config.defaultLevel c.status,
             message := "Incoming request", attrs := attrs }] := by
  unfold Logger.loggerHandle
  by_cases h1 : (decide (0 < config.whitelistPaths.length) &&
      config.whitelistPaths.any fun re => !(re c.path)) = true
  · rw [if_pos h1]
    exact Or.inl rfl
  · rw [if_neg h1]
    by_cases h2 : (decide (0 < config.blacklistPaths.length) &&
        config.blacklistPaths.any fun re => re c.path) = true
    · rw [if_pos h2]
      exact Or.inl rfl
    · rw [if_neg h2]
      exact Or.inr ⟨_, rfl⟩

/-- C1: for every configuration and every final HTTP status code, the
level of the emitted log record equals the level of the first rule in the
configured httpLevels list whose regex matches the decimal string of the
status code, and equals the configured default level when no rule
matches. -/
theorem emitted_level_first_match (config : Logger.Config)
    (requestID : String) (c : GinContext) :
    ∀ rec ∈ ((Logger.loggerHandle config requestID c).2).records,
      rec.level
        = Logger.firstMatchLevel config.httpLevels config.defaultLevel
            c.status := by
  intro rec hrec
  rcases loggerHandle_records config requestID c with h | ⟨attrs, h⟩
  · rw [h] at hrec
    cases hrec
  · rw [h, List.mem_singleton] at hrec
    subst hrec
    exact resolveLevel_eq_firstMatchLevel _ _ _

/-- A configuration with all default fields disabled and an empty
custom-field callback: the emitted record then has no attributes. -/
def cfgC1 : Logger.Config :=
  Logger.buildConfig
    [Logger.withoutDefaultFields, Logger.withCustomFields (fun _ => [])]

/-- A request context for concrete evaluations of the request logger. -/
def ctxC1 : GinContext :=
  { method := "GET", path := "/t", userAgent := "ua", clientIP := "ip",
    status := 200, latencyNs := 0 }

/-- The record `cfgC1` and `ctxC1` produce: INFO level, no attributes. -/
def recC1 : LogRecord :=
  { level := LevelInfo, message := "Incoming request", attrs := [] }

/-- Witness for C1 at a concrete configuration and request. -/
theorem emitted_level_first_match_witness :
    recC1 ∈ ((Logger.loggerHandle cfgC1 "rid" ctxC1).2).records ∧
    recC1.level
      = Logger.firstMatchLevel cfgC1.httpLevels cfgC1.defaultLevel
          ctxC1.status := by
  have hmem : recC1 ∈ ((Logger.loggerHandle cfgC1 "rid" ctxC1).2).records :=
    List.mem_singleton_self _
  exact ⟨hmem, emitted_level_first_match cfgC1 "rid" ctxC1 _ hmem⟩

/-- C2: under the default recovery configuration, every downstream panic
yields exactly one record with message Panic recovered (at ERROR level,
with the error, request and stack fields), the recovery action aborts with
HTTP 500, and the panic is absorbed, never re-raised. -/
theorem panic_recovered_once_500 :
    Recovery.New [] = Except.ok Recovery.newConfig ∧
    ∀ (c : GinContext) (requestDump stackTrace : String) (err : PanicValue),
      (Recovery.handle Recovery.newConfig c requestDump stackTrace
          (Recovery.Downstream.panics err)).2
        = { records :=
              [{ level := LevelError, message := "Panic recovered",
                 attrs := [slogAny "error" err,
                           slogString "request" requestDump,
                           slogString "stack" stackTrace] }],
            abortStatus := some 500,
            repanic := false } :=
  ⟨rfl, fun _ _ _ _ => rfl⟩

/-- A valid configuration with a two-regex whitelist: the first regex
matches every path, the second matches none. -/
def cfgC3 : Logger.Config :=
  { Logger.newConfig with whitelistPaths := [fun _ => true, fun _ => false] }

/-- A request context whose path matches the first whitelist regex of
`cfgC3` but not the second. -/
def ctxC3 : GinContext :=
  { method := "GET", path := "/a", userAgent := "ua", clientIP := "ip",
    status := 200, latencyNs := 0 }

/-- C3 counterexample: the path matches at least one whitelist regex of a
valid configuration, yet no log record is produced, because the handler
skips logging as soon as one whitelist regex fails to match. -/
theorem whitelist_any_match_counterexample :
    cfgC3.validate = Except.ok () ∧
    cfgC3.whitelistPaths.any (fun re => re ctxC3.path) = true ∧
    ((Logger.loggerHandle cfgC3 "rid" ctxC3).2).records = [] :=
  ⟨rfl, rfl, rfl⟩

/-- C3 (amended): with a non-empty whitelist and an empty blacklist, a
request produces a log record if and only if its URL path matches every
configured whitelist regex. -/
theorem whitelist_all_match_iff (config : Logger.Config)
    (requestID : String) (c : GinContext)
    (hwl : config.whitelistPaths ≠ [])
    (hbl : config.blacklistPaths = []) :
    ((Logger.loggerHandle config requestID c).2).records ≠ [] ↔
      ∀ re ∈ config.whitelistPaths, re c.path = true := by
  have hlen : decide (0 < config.whitelistPaths.length) = true := by
    simp [List.length_pos, hwl]
  unfold Logger.loggerHandle
  cases hc : config.whitelistPaths.any (fun re => !(re c.path)) with
  | true =>
    rw [if_pos (by simp [hlen])]
    constructor
    · intro h
      exact absurd rfl h
    · intro hall
      rw [List.any_eq_true] at hc
      obtain ⟨re, hre, hmatch⟩ := hc
      rw [hall re hre] at hmatch
      simp at hmatch
  | false =>
    rw [if_neg (by simp)]
    rw [if_neg (by rw [hbl]; simp)]
    constructor
    · intro _ re hre
      have hne : ¬(!(re c.path)) = true := by
        intro hcontra
        have hany : config.whitelistPaths.any (fun r => !(r c.path)) = true :=
          List.any_eq_true.mpr ⟨re, hre, hcontra⟩
        rw [hc] at hany
        exact Bool.false_ne_true hany
      simpa using hne
    · intro _
      exact List.cons_ne_nil _ _

/-- A valid configuration with a one-regex whitelist matching every path. -/
def cfgC3w : Logger.Config :=
  { Logger.newConfig with whitelistPaths := [fun _ => true] }

/-- Witness for the amended C3 at a concrete configuration and request. -/
theorem whitelist_all_match_iff_witness :
    ((Logger.loggerHandle cfgC3w "rid" ctxC3).2).records ≠ [] ↔
      ∀ re ∈ cfgC3w.whitelistPaths, re ctxC3.path = true :=
  whitelist_all_match_iff cfgC3w "rid" ctxC3 (List.cons_ne_nil _ _) rfl

/-- A default-configuration request context: GET /test returning 200. -/
def ctxC4 : GinContext :=
  { method := "GET", path := "/test", userAgent := "test", clientIP := "",
    status := 200, latencyNs := 0 }

/-- C4 (code-bug evidence): under the default configuration no custom
logger is set (`customLogger` is the nil function value), the request is
logged, and the handler then invokes `config.customLogger` without a nil
check, a nil function call, which panics in Go. -/
theorem default_config_nil_custom_logger_call :
    Logger.newConfig.customLogger = none ∧
    ((Logger.loggerHandle Logger.newConfig "rid" ctxC4).2).records ≠ [] ∧
    ((Logger.loggerHandle Logger.newConfig "rid" ctxC4).2).nilCustomLoggerCall
      = true :=
  ⟨rfl, List.cons_ne_nil _ _, rfl⟩

/-- C5: a configuration whose whitelist and blacklist are both non-empty
makes `logger.New` abort with the conflict panic message at configuration
time, before any request is handled. -/
theorem whitelist_blacklist_conflict_aborts
    (opts : List Logger.ConfigOption)
    (hwl : (Logger.buildConfig opts).whitelistPaths ≠ [])
    (hbl : (Logger.buildConfig opts).blacklistPaths ≠ []) :
    Logger.New opts =
      Except.error "whitelist and blacklist can not be used together" := by
  have hcond : ((Logger.buildConfig opts).whitelistPaths.length != 0 &&
      (Logger.buildConfig opts).blacklistPaths.length != 0) = true := by
    simp [bne_iff_ne, Ne, List.length_eq_zero, hwl, hbl]
  simp only [Logger.New, Logger.Config.validate]
  rw [if_pos hcond]

/-- Options passing a one-regex whitelist and a one-regex blacklist. -/
def optsC5 : List Logger.ConfigOption :=
  [Logger.withWhitelistPath [fun _ => true],
   Logger.withBlacklistPath [fun _ => true]]

/-- Witness for C5 at concrete options. -/
theorem whitelist_blacklist_conflict_aborts_witness :
    Logger.New optsC5 =
      Except.error "whitelist and blacklist can not be used together" :=
  whitelist_blacklist_conflict_aborts optsC5 (List.cons_ne_nil _ _)
    (List.cons_ne_nil _ _)

/-- C6: for both factories, a configuration with every default field flag
disabled and no custom-field callback makes `New` abort at configuration
time (for the logger any of the two validation panics may fire first; for
the recovery middleware the message is exactly the one of its single
check). -/
theorem no_fields_aborts :
    (∀ opts : List Logger.ConfigOption,
      (Logger.buildConfig opts).isDefaultFields = false →
      (Logger.buildConfig opts).customFields = none →
      ∃ msg, Logger.New opts = Except.error msg) ∧
    (∀ opts : List Recovery.ConfigOption,
      (Recovery.buildConfig opts).isDefaultFields = false →
      (Recovery.buildConfig opts).customFields = none →
      Recovery.New opts = Except.error "no fields to log") := by
  constructor
  · intro opts hfields hcustom
    simp only [Logger.New, Logger.Config.validate]
    by_cases h1 : ((Logger.buildConfig opts).whitelistPaths.length != 0 &&
        (Logger.buildConfig opts).blacklistPaths.length != 0) = true
    · rw [if_pos h1]
      exact ⟨_, rfl⟩
    · rw [if_neg h1]
      rw [if_pos (by simp [hfields, hcustom])]
      exact ⟨_, rfl⟩
  · intro opts hfields hcustom
    simp only [Recovery.New, Recovery.Config.validate]
    rw [if_pos (by simp [hfields, hcustom])]

/-- Witness for C6 at concrete options for both factories. -/
theorem no_fields_aborts_witness :
    (∃ msg, Logger.New [Logger.withoutDefaultFields] = Except.error msg) ∧
    Recovery.New [Recovery.withoutDefaultFields]
      = Except.error "no fields to log" :=
  ⟨no_fields_aborts.1 [Logger.withoutDefaultFields] rfl rfl,
   no_fields_aborts.2 [Recovery.withoutDefaultFields] rfl rfl⟩

/-- C7: under the default configuration, a GET request to /test completing
with status 200 produces exactly one record, at INFO level, with exactly
the fields ip, status=200, method=GET, path=/test, user-agent, latency and
request-id, in that order. -/
theorem default_get_test_200_record :
    Logger.New [] = Except.ok Logger.newConfig ∧
    ∀ (requestID ip userAgent : String) (latencyNs : Int),
      ((Logger.loggerHandle Logger.newConfig requestID
          { method := "GET", path := "/test", userAgent := userAgent,
            clientIP := ip, status := 200, latencyNs := latencyNs }).2).records
        = [{ level := LevelInfo, message := "Incoming request",
             attrs := [slogString "ip" ip, slogInt "status" 200,
                       slogString "method" "GET", slogString "path" "/test",
                       slogString "user-agent" userAgent,
                       slogDuration "latency" latencyNs,
                       slogString "request-id" requestID] }] :=
  ⟨rfl, fun _ _ _ _ => rfl⟩

/-- C8: whenever the request-id field is enabled, the handler sets the
X-Request-ID response header, for every configuration and every request,
and the headers it sets are `responseHeaders config requestID`, a value
computed from the configuration and the generated id alone, before the
downstream chain runs and independent of the whitelist and blacklist
filtering that only affects the records. -/
theorem request_id_header_set (config : Logger.Config) (requestID : String)
    (c : GinContext) (h : config.requestIDField = true) :
    ((Logger.loggerHandle config requestID c).2).headers
        = [("X-Request-ID", requestID)] ∧
    ((Logger.loggerHandle config requestID c).2).headers
        = Logger.responseHeaders config requestID := by
  have hh : ((Logger.loggerHandle config requestID c).2).headers
      = Logger.responseHeaders config requestID := by
    unfold Logger.loggerHandle
    by_cases h1 : (decide (0 < config.whitelistPaths.length) &&
        config.whitelistPaths.any fun re => !(re c.path)) = true
    · rw [if_pos h1]
    · rw [if_neg h1]
      by_cases h2 : (decide (0 < config.blacklistPaths.length) &&
          config.blacklistPaths.any fun re => re c.path) = true
      · rw [if_pos h2]
      · rw [if_neg h2]
  refine ⟨?_, hh⟩
  rw [hh]
  unfold Logger.responseHeaders
  rw [if_pos h]

/-- A configuration whose whitelist matches no path at all: every request
is excluded from logging. -/
def cfgC8 : Logger.Config :=
  { Logger.newConfig with whitelistPaths := [fun _ => false] }

/-- A request context for the C8 witness. -/
def ctxC8 : GinContext :=
  { method := "GET", path := "/skip", userAgent := "ua", clientIP := "ip",
    status := 200, latencyNs := 0 }

/-- Witness for C8: the path is excluded from logging (no record), yet the
X-Request-ID header is set. -/
theorem request_id_header_set_witness :
    ((Logger.loggerHandle cfgC8 "rid" ctxC8).2).records = [] ∧
    ((Logger.loggerHandle cfgC8 "rid" ctxC8).2).headers
      = [("X-Request-ID", "rid")] :=
  ⟨rfl, (request_id_header_set cfgC8 "rid" ctxC8 rfl).1⟩

/-- C9: for both middlewares the configuration is built by folding the
functional options over the defaults once, at attachment time
(`Logger.buildConfig`, `Recovery.buildConfig`), and the per-request
handlers leave it unchanged: the configuration component returned by a
handler equals the configuration it was given, for every request. -/
theorem config_unchanged_by_handler :
    (∀ (config : Logger.Config) (requestID : String) (c : GinContext),
      (Logger.loggerHandle config requestID c).1 = config) ∧
    (∀ (config : Recovery.Config) (c : GinContext)
        (requestDump stackTrace : String) (d : Recovery.Downstream),
      (Recovery.handle config c requestDump stackTrace d).1 = config) := by
  constructor
  · intro config requestID c
    unfold Logger.loggerHandle
    by_cases h1 : (decide (0 < config.whitelistPaths.length) &&
        config.whitelistPaths.any fun re => !(re c.path)) = true
    · rw [if_pos h1]
    · rw [if_neg h1]
      by_cases h2 : (decide (0 < config.blacklistPaths.length) &&
          config.blacklistPaths.any fun re => re c.path) = true
      · rw [if_pos h2]
      · rw [if_neg h2]
  · intro config c requestDump stackTrace d
    cases d <;> rfl

/-- C10: for every valid recovery configuration, when the downstream chain
returns normally the recovery middleware emits no record, aborts with no
status, raises nothing, and leaves the configuration unchanged. -/
theorem recovery_normal_no_record (config : Recovery.Config)
    (c : GinContext) (requestDump stackTrace : String)
    (h : config.validate = Except.ok ()) :
    Recovery.handle config c requestDump stackTrace
        Recovery.Downstream.normal
      = (config, { records := [], abortStatus := none, repanic := false }) :=
  rfl

/-- Witness for C10 at the default recovery configuration. -/
theorem recovery_normal_no_record_witness :
    Recovery.handle Recovery.newConfig
        { method := "GET", path := "/t", userAgent := "ua", clientIP := "ip",
          status := 200, latencyNs := 0 } "dump" "trace"
        Recovery.Downstream.normal
      = (Recovery.newConfig,
          { records := [], abortStatus := none, repanic := false }) :=
  recovery_normal_no_record Recovery.newConfig
    { method := "GET", path := "/t", userAgent := "ua", clientIP := "ip",
      status := 200, latencyNs := 0 } "dump" "trace" rfl

end Ginslog
